import Mathlib

/-! Verification of the client connector of rsRPC
(`src/lib/src/server/client_connector.rs`).

The connector merges three producer channels (IPC activity commands,
OS process-detection events, socket-originated commands) into one
outbound broadcast stream, keeping a small presence state
(`active_socket`, `last_pid`) for the process-detection producer only.
We embed the per-event bodies of the three dispatch loops as pure step
functions from the received event (and the registry size read at the
emptiness check) to the list of broadcast payload strings, threading the
presence state explicitly for the process-detection loop.  Payload
strings are built exactly as the source's `format!` templates build
them, character for character.
-/

namespace RsRPC

/-- A process-detection event's activity part, from
`ProcessDetectedEvent.activity` as used by the connector: a session id
string (sentinel `"null"`), a name, an optional start timestamp string
and an optional pid. -/
structure ProcActivity where
  id : String
  name : String
  timestamp : Option String
  pid : Option Nat
deriving DecidableEq, Repr

/-- The two-field presence state of the connector: `active_socket` and
`last_pid` (the `Arc<Mutex<...>>` pair on `ClientConnector`). -/
structure PresenceState where
  active_socket : Option String
  last_pid : Option Nat
deriving DecidableEq, Repr

/-- The `empty_activity(pid, socket_id)` helper — the exact text the
source's `format!` raw string produces, including its whitespace. -/
def empty_activity (pid : Nat) (socket_id : String) : String :=
  "\n    \x7b\n      \"activity\": null,\n      \"pid\": " ++ toString pid ++
  ",\n      \"socketId\": \"" ++ socket_id ++ "\"\n    \x7d\n  "

/-- The populated payload template of the process-detection loop — the
exact text of the source's `format!` raw string, with the five
interpolated values (`proc_activity.id`, `.name`,
`.timestamp.unwrap_or("0")`, `.pid.unwrap_or_default()`,
`.id` again as socketId), including its whitespace. -/
def proc_payload (id name start : String) (pid : Nat) (socketId : String) : String :=
  "\n          \x7b\n            \"activity\": \x7b\n              \"application_id\": \"" ++
  id ++
  "\",\n              \"name\": \"" ++
  name ++
  "\",\n              \"timestamps\": \x7b\n                \"start\": " ++
  start ++
  "\n              \x7d,\n              \"type\": 0,\n              \"metadata\": \x7b\x7d,\n              \"flags\": 0\n            \x7d,\n            \"pid\": " ++
  toString pid ++
  ",\n            \"socketId\": \"" ++
  socketId ++
  "\"\n          \x7d\n          "

/-- One iteration of the process-detection dispatch loop
(`ClientConnector::start`, proc thread): given the registry size read at
the emptiness check, the presence state and the received event, return
the new presence state and the list of payload strings broadcast, in
order.  Mirrors the source: empty-registry skip; `id == "null"` clears a
live session (broadcasting `empty_activity` of `last_pid.unwrap_or_default()`
and the current `active_socket.unwrap_or_default()`, then setting
`active_socket = None` only); an id equal to `active_socket` is dropped;
otherwise a live different session is first closed with an empty
payload, then the populated payload is built, `last_pid` and
`active_socket` are updated and the payload broadcast. -/
def procStep (nClients : Nat) (st : PresenceState) (e : ProcActivity) :
    PresenceState × List String :=
  if nClients = 0 then (st, [])
  else if e.id = "null" then
    if st.active_socket = none then (st, [])
    else
      (⟨none, st.last_pid⟩,
       [empty_activity (st.last_pid.getD 0) (st.active_socket.getD "")])
  else if st.active_socket = some e.id then (st, [])
  else
    let closeOld :=
      if st.active_socket.isSome then
        [empty_activity (st.last_pid.getD 0) (st.active_socket.getD "")]
      else []
    let payload :=
      proc_payload e.id e.name (e.timestamp.getD "0") (e.pid.getD 0) e.id
    (⟨some e.id, e.pid⟩, closeOld ++ [payload])

/-- Folding `procStep` over a sequence of process-detection events,
collecting the per-event broadcast lists. -/
def procDispatch (nClients : Nat) :
    PresenceState → List ProcActivity → PresenceState × List (List String)
  | st, [] => (st, [])
  | st, e :: es =>
    let r := procStep nClients st e
    let rs := procDispatch nClients r.1 es
    (rs.1, r.2 :: rs.2)

/-- Modelled from the spec: the structured activity payload carried by
`ActivityCmd` (the `Activity` type lives in `src/cmd`, not under the
sources given here).  The connector only ever touches its
`application_id` field; the remaining fields are kept as one opaque
component. -/
structure Activity where
  application_id : String
  rest : String
deriving DecidableEq, Repr

/-- Modelled from the spec: the optional nested argument bundle of IPC
and socket-command events, carrying `activity: Optional<Activity>` and
`pid: Optional<u64>` (§6 producer channel contracts). -/
structure ActivityArgs where
  activity : Option Activity
  pid : Option Nat
deriving DecidableEq, Repr

/-- Modelled from the spec: an IPC / socket command event
(`ActivityCmd` from `src/cmd`): a free-form command tag, an application
identifier and the optional argument bundle. -/
structure ActivityCmd where
  cmd : String
  application_id : String
  args : Option ActivityArgs
deriving DecidableEq, Repr

/-- The `ActivityPayload` record serialized on the IPC / SET_ACTIVITY
populate paths: `activity`, `pid`, `socket_id`. -/
structure ActivityPayload where
  activity : Option Activity
  pid : Option Nat
  socket_id : Option String
deriving DecidableEq, Repr

/-- One iteration of the IPC dispatch loop (`ClientConnector::start`,
ipc thread): empty-registry skip before anything else; `fix()`
normalization (external collaborator, passed in as `fix`); missing
argument bundle dropped; absent activity broadcasts
`empty_activity(pid, pid.to_string())` with `pid = args.pid.unwrap_or_default()`;
otherwise the activity's `application_id` is stamped from the event and
the `ActivityPayload` serialized with `serde_json::to_string` (passed in
as `ser`, `none` = serialization error), a failure dropping that one
broadcast. -/
def ipcStep (fix : ActivityCmd → ActivityCmd) (ser : ActivityPayload → Option String)
    (nClients : Nat) (cmd : ActivityCmd) : List String :=
  if nClients = 0 then []
  else
    let c := fix cmd
    match c.args with
    | none => []
    | some args =>
      match args.activity with
      | none =>
        let pid := args.pid.getD 0
        [empty_activity pid (toString pid)]
      | some activity =>
        let activity := { activity with application_id := c.application_id }
        let payload : ActivityPayload :=
          ⟨some activity, args.pid, some (toString (args.pid.getD 0))⟩
        match ser payload with
        | some s => [s]
        | none => []

/-- One iteration of the socket-command dispatch loop
(`ClientConnector::start`, ws thread): empty-registry skip; a command
tag other than `"SET_ACTIVITY"` serializes the whole event with
`serde_json::to_string(&ws_event).unwrap_or("".to_string())` (the event
serializer is passed in as `serCmd`) and broadcasts the result; a
`"SET_ACTIVITY"` tag runs the same fix / stamp / serialize body as the
ipc thread (duplicated in the source, duplicated here). -/
def wsStep (fix : ActivityCmd → ActivityCmd) (serCmd : ActivityCmd → Option String)
    (ser : ActivityPayload → Option String) (nClients : Nat) (cmd : ActivityCmd) :
    List String :=
  if nClients = 0 then []
  else if cmd.cmd ≠ "SET_ACTIVITY" then [(serCmd cmd).getD ""]
  else
    let c := fix cmd
    match c.args with
    | none => []
    | some args =>
      match args.activity with
      | none =>
        let pid := args.pid.getD 0
        [empty_activity pid (toString pid)]
      | some activity =>
        let activity := { activity with application_id := c.application_id }
        let payload : ActivityPayload :=
          ⟨some activity, args.pid, some (toString (args.pid.getD 0))⟩
        match ser payload with
        | some s => [s]
        | none => []

/-- The broadcast primitive `ClientConnector::send_data`: iterate the registry (a list of
client id / responder pairs; a responder is modelled by its send
outcome on a given string) and send the same text to every client.
Returns the attempted sends in iteration order: client id, the bytes
handed to `responder.send`, and the (ignored) outcome. -/
def send_data (clients : List (Nat × (String → Bool))) (data : String) :
    List (Nat × String × Bool) :=
  clients.map (fun c => (c.1, data, c.2 data))

/-- Outcome of handling one `Event::Message(client_id, message)` on the
websocket thread. `panicked` models the `.unwrap()` on a failed registry
lookup; `echoed r m` models `responder.send(message)` on the responder
`r` found for the client id; `dropped` is the discard-and-continue
behaviour the spec describes for production builds, which the code
never exhibits. -/
inductive EchoOutcome (μ : Type) where
  | panicked : EchoOutcome μ
  | echoed : Nat → μ → EchoOutcome μ
  | dropped : EchoOutcome μ
deriving DecidableEq, Repr

/-- Association-list lookup standing for `HashMap::get` on the client
registry (responders modelled as opaque tokens). -/
def lookupClient : List (Nat × Nat) → Nat → Option Nat
  | [], _ => none
  | c :: cs, cid => if c.1 = cid then some c.2 else lookupClient cs cid

/-- The `Event::Message` arm of the websocket thread of `ClientConnector::start`:
look the client id up in the registry and send the message back to that
responder unmodified; a missing id hits `.get(&client_id).unwrap()` and
panics. -/
def handleInbound (clients : List (Nat × Nat)) (cid : Nat) (msg : μ) :
    EchoOutcome μ :=
  match lookupClient clients cid with
  | some r => .echoed r msg
  | none => .panicked

/-! The following is a small JSON recognizer, used to check whether broadcast payload
texts are well-formed JSON.  It is deliberately permissive (any escape
sequence inside a string is allowed, numbers are any run of sign /
digit / dot / exponent characters, trailing commas are tolerated), so
that a text it rejects is rejected by every real JSON parser. -/

/-- The opening brace character. -/
def lbrace : Char := Char.ofNat 123

/-- The closing brace character. -/
def rbrace : Char := Char.ofNat 125

/-- Drop leading JSON whitespace. -/
def jsonSkipWs : List Char → List Char
  | c :: cs =>
    if c = ' ' ∨ c = '\n' ∨ c = '\t' ∨ c = '\r' then jsonSkipWs cs else c :: cs
  | [] => []

/-- Scan a JSON string body (the opening quote already consumed);
returns the input after the closing quote.  A backslash skips the next
character unconditionally (permissive). -/
def jsonStr : List Char → Option (List Char)
  | [] => none
  | c :: cs =>
    if c = '"' then some cs
    else if c = '\\' then
      match cs with
      | [] => none
      | _ :: cs' => jsonStr cs'
    else jsonStr cs

/-- Characters a (permissive) JSON number may contain. -/
def numChar (c : Char) : Bool :=
  c.isDigit || c = '-' || c = '+' || c = '.' || c = 'e' || c = 'E'

/-- Consume a run of number characters. -/
def jsonNum : List Char → List Char
  | [] => []
  | c :: cs => if numChar c then jsonNum cs else c :: cs

/-- Require the given literal characters as a prefix of the input. -/
def dropLit : List Char → List Char → Option (List Char)
  | [], cs => some cs
  | _ :: _, [] => none
  | l :: ls, c :: cs => if c = l then dropLit ls cs else none

mutual

/-- Recognize one JSON value; returns the input after it. -/
def jsonVal : Nat → List Char → Option (List Char)
  | 0, _ => none
  | fuel + 1, cs =>
    match jsonSkipWs cs with
    | [] => none
    | c :: cs' =>
      if c = '"' then jsonStr cs'
      else if c = lbrace then jsonObj fuel cs'
      else if c = '[' then jsonArr fuel cs'
      else if c = 'n' then dropLit ['u', 'l', 'l'] cs'
      else if c = 't' then dropLit ['r', 'u', 'e'] cs'
      else if c = 'f' then dropLit ['a', 'l', 's', 'e'] cs'
      else if c.isDigit ∨ c = '-' then some (jsonNum cs')
      else none

/-- Recognize the members of a JSON object (the opening brace already
consumed). -/
def jsonObj : Nat → List Char → Option (List Char)
  | 0, _ => none
  | fuel + 1, cs =>
    match jsonSkipWs cs with
    | [] => none
    | c :: cs' =>
      if c = rbrace then some cs'
      else if c = '"' then
        match jsonStr cs' with
        | none => none
        | some cs2 =>
          match jsonSkipWs cs2 with
          | ':' :: cs3 =>
            match jsonVal fuel cs3 with
            | none => none
            | some cs4 =>
              match jsonSkipWs cs4 with
              | c5 :: cs5 =>
                if c5 = ',' then jsonObj fuel cs5
                else if c5 = rbrace then some cs5
                else none
              | [] => none
          | _ => none
      else none

/-- Recognize the elements of a JSON array (the opening bracket already
consumed). -/
def jsonArr : Nat → List Char → Option (List Char)
  | 0, _ => none
  | fuel + 1, cs =>
    match jsonSkipWs cs with
    | [] => none
    | c :: cs' =>
      if c = ']' then some cs'
      else
        match jsonVal fuel (c :: cs') with
        | none => none
        | some cs2 =>
          match jsonSkipWs cs2 with
          | c3 :: cs3 =>
            if c3 = ',' then jsonArr fuel cs3
            else if c3 = ']' then some cs3
            else none
          | [] => none

end

/-- A string is well-formed JSON when it is one JSON value followed
only by whitespace. -/
def jsonWf (s : String) : Bool :=
  match jsonVal (s.toList.length + 2) s.toList with
  | some rest => jsonSkipWs rest = []
  | none => false

/-- The `{id:"null"}` process-detection event of the spec's concrete
scenario (name empty, no timestamp, no pid). -/
def eNull : ProcActivity := ⟨"null", "", none, none⟩

/-- The `{id:"123", name:"Game", pid:42}` process-detection event of
the spec's concrete scenario. -/
def eGame : ProcActivity := ⟨"123", "Game", none, some 42⟩

/-- A command event with a tag other than `"SET_ACTIVITY"`. -/
def cmdFoo : ActivityCmd := ⟨"FOO", "app", none⟩

/-- A structured activity with a placeholder application id. -/
def actX : Activity := ⟨"x", "rest"⟩

/-- An argument bundle carrying `actX` and pid 5. -/
def argsX : ActivityArgs := ⟨some actX, some 5⟩

/-- A `"SET_ACTIVITY"` command event carrying `argsX`. -/
def cmdSet : ActivityCmd := ⟨"SET_ACTIVITY", "app", some argsX⟩

set_option maxRecDepth 400000

/-- C1: starting the process-detection dispatch Idle with a non-empty
registry, the event sequence `{id:"null"}`, `{id:"123", name:"Game",
pid:42}`, the same event again, `{id:"null"}` broadcasts: nothing for
the first "null"; one populated payload with application_id `"123"`,
name `"Game"`, start `"0"` (the template fixes type 0, metadata `{}`
and flags 0), pid 42 and socketId `"123"` for the first real event;
nothing for the repeat; and one empty payload with pid 42 and socketId
`"123"` for the final "null". -/
theorem c1_scenario_broadcasts :
    procDispatch 1 ⟨none, none⟩ [eNull, eGame, eGame, eNull] =
      (⟨none, some 42⟩,
       [[], [proc_payload "123" "Game" "0" 42 "123"], [],
        [empty_activity 42 "123"]]) := by
  decide

/-- C2: a process-detection event with a real session id `e.id`
arriving while the state is Live(`a`) with `a ≠ e.id` and the registry
non-empty broadcasts exactly an empty payload for the old session
(pid `last_pid.unwrap_or_default()`, socketId the old `active_socket`
value) followed by the populated payload for the new session, and
leaves `last_pid` equal to the incoming pid and `active_socket` equal
to `Some e.id`. -/
theorem c2_session_change_two_broadcasts (n : Nat) (st : PresenceState)
    (e : ProcActivity) (a : String) (hn : n ≠ 0) (ha : st.active_socket = some a)
    (hne : e.id ≠ a) (hnull : e.id ≠ "null") :
    procStep n st e =
      (⟨some e.id, e.pid⟩,
       [empty_activity (st.last_pid.getD 0) a,
        proc_payload e.id e.name (e.timestamp.getD "0") (e.pid.getD 0) e.id]) := by
  have h1 : ¬ st.active_socket = some e.id := by
    rw [ha]
    intro h
    exact hne (Option.some.inj h).symm
  simp [procStep, hn, hnull, h1, ha]
  exact fun h => hne h.symm

/-- Closed instance of `c2_session_change_two_broadcasts` at a concrete
live session "A" and incoming event "B". -/
theorem c2_session_change_witness :
    procStep 1 ⟨some "A", some 7⟩ ⟨"B", "Game", none, some 42⟩ =
      (⟨some "B", some 42⟩,
       [empty_activity 7 "A", proc_payload "B" "Game" "0" 42 "B"]) :=
  c2_session_change_two_broadcasts 1 ⟨some "A", some 7⟩
    ⟨"B", "Game", none, some 42⟩ "A" (by decide) rfl (by decide) (by decide)

/-- C3: a process-detection event whose real session id equals the
current `active_socket` is dropped with no broadcast and no state
change; after any event with a real id the state is Live on that id, so
a second identical event always broadcasts nothing, and from Idle two
consecutive identical events produce exactly one broadcast in total. -/
theorem c3_repeat_idempotent (n : Nat) (st : PresenceState) (e : ProcActivity)
    (hn : n ≠ 0) (hid : e.id ≠ "null") :
    (st.active_socket = some e.id → procStep n st e = (st, [])) ∧
    procStep n (procStep n st e).1 e = ((procStep n st e).1, []) ∧
    (st.active_socket = none →
      (procStep n st e).2.length = 1 ∧ (procStep n (procStep n st e).1 e).2 = []) := by
  have drop : ∀ st' : PresenceState, st'.active_socket = some e.id →
      procStep n st' e = (st', []) := by
    intro st' h
    simp [procStep, hn, hid, h]
  have key : (procStep n st e).1.active_socket = some e.id := by
    by_cases h : st.active_socket = some e.id
    · simp [procStep, hn, hid, h]
    · simp [procStep, hn, hid, h]
  refine ⟨drop st, drop _ key, fun h => ⟨?_, by rw [drop _ key]⟩⟩
  simp [procStep, hn, hid, h]

/-- Closed instance of `c3_repeat_idempotent`: a repeat of the live
session "123" broadcasts nothing, and from Idle the first `eGame`
broadcasts once while the second broadcasts nothing. -/
theorem c3_repeat_witness :
    procStep 1 ⟨some "123", some 7⟩ eGame = (⟨some "123", some 7⟩, []) ∧
    (procStep 1 ⟨none, none⟩ eGame).2.length = 1 ∧
    (procStep 1 (procStep 1 ⟨none, none⟩ eGame).1 eGame).2 = [] :=
  ⟨(c3_repeat_idempotent 1 ⟨some "123", some 7⟩ eGame (by decide) (by decide)).1 rfl,
   (c3_repeat_idempotent 1 ⟨none, none⟩ eGame (by decide) (by decide)).2.2 rfl⟩

/-- C4 counterexample: the clear-on-null transition does not reset
`PresenceState` to `(None, None)` — from Live("A") with
`last_pid = Some 42`, the "null" event broadcasts the empty payload
but leaves `last_pid = Some 42`, so the resulting state differs from
`(None, None)`. -/
theorem c4_clear_counterexample :
    procStep 1 ⟨some "A", some 42⟩ eNull =
      (⟨none, some 42⟩, [empty_activity 42 "A"]) ∧
    (⟨none, some 42⟩ : PresenceState) ≠ ⟨none, none⟩ := by
  decide

/-- C4 amended: the clear-on-null transition (registry non-empty,
`active_socket` Some) broadcasts one empty payload built from
`last_pid.unwrap_or_default()` and the current `active_socket` value,
then sets `active_socket := None` while leaving `last_pid` unchanged;
moreover clear-on-null is the only transition that takes
`active_socket` to `None` (any step ending with `active_socket = None`
either started with it `None` or consumed a "null" event). -/
theorem c4_clear_amended (n : Nat) (st : PresenceState) (e : ProcActivity)
    (hn : n ≠ 0) (hs : st.active_socket.isSome = true) (hid : e.id = "null") :
    procStep n st e =
      (⟨none, st.last_pid⟩,
       [empty_activity (st.last_pid.getD 0) (st.active_socket.getD "")]) ∧
    (∀ (st' : PresenceState) (e' : ProcActivity) (m : Nat),
      (procStep m st' e').1.active_socket = none →
      st'.active_socket = none ∨ e'.id = "null") := by
  constructor
  · obtain ⟨a, ha⟩ := Option.isSome_iff_exists.mp hs
    simp [procStep, hn, hid, ha]
  · intro st' e' m h
    by_cases hm : m = 0
    · exact Or.inl (by simp [procStep, hm] at h; exact h)
    · by_cases hid' : e'.id = "null"
      · exact Or.inr hid'
      · by_cases hact : st'.active_socket = some e'.id
        · exact Or.inl (by simp [procStep, hm, hid', hact] at h)
        · exact absurd h (by simp [procStep, hm, hid', hact])

/-- Closed instance of `c4_clear_amended`: the clear from
Live("A") keeps `last_pid = Some 7`. -/
theorem c4_clear_amended_witness :
    procStep 1 ⟨some "A", some 7⟩ eNull =
      (⟨none, some 7⟩, [empty_activity 7 "A"]) :=
  (c4_clear_amended 1 ⟨some "A", some 7⟩ eNull (by decide) (by decide)
    (by decide)).1

/-- C5: with zero registered clients every producer loop drops its
event before any transform: the process-detection step leaves the
presence state unchanged and broadcasts nothing, and the IPC and
socket-command steps broadcast nothing, for arbitrary (not necessarily
well-formed) events and for every normalization and serialization
function — in particular none of them is ever applied. -/
theorem c5_no_audience_short_circuit (st : PresenceState) (e : ProcActivity)
    (f : ActivityCmd → ActivityCmd) (serCmd : ActivityCmd → Option String)
    (ser : ActivityPayload → Option String) (c c' : ActivityCmd) :
    procStep 0 st e = (st, []) ∧ ipcStep f ser 0 c = [] ∧
    wsStep f serCmd ser 0 c' = [] := by
  refine ⟨?_, ?_, ?_⟩ <;> simp [procStep, ipcStep, wsStep]

/-- Closed instance of `c5_no_audience_short_circuit` at concrete
state, events and collaborator functions. -/
theorem c5_no_audience_witness :
    procStep 0 ⟨some "A", some 7⟩ eGame = (⟨some "A", some 7⟩, []) ∧
    ipcStep id (fun _ => none) 0 cmdFoo = [] ∧
    wsStep id (fun _ => none) (fun _ => none) 0 cmdFoo = [] :=
  c5_no_audience_short_circuit ⟨some "A", some 7⟩ eGame id (fun _ => none)
    (fun _ => none) cmdFoo cmdFoo

/-- C6 counterexample: an inbound message for a client id absent from
the registry is not logged-and-dropped in any build — the code's
`.get(&client_id).unwrap()` panics, which is the `panicked` outcome and
not the `dropped` (discard-and-continue) outcome the claim describes
for production builds. -/
theorem c6_lookup_miss_counterexample :
    handleInbound [(1, 10)] 2 "hello" = (EchoOutcome.panicked : EchoOutcome String) ∧
    handleInbound [(1, 10)] 2 "hello" ≠ (EchoOutcome.dropped : EchoOutcome String) := by
  decide

/-- C6 amended: an inbound message for an unregistered client id makes
the websocket thread panic (`unwrap` on a failed lookup) in every
build, and a message for a registered id is echoed back unmodified to
that client's responder. -/
theorem c6_lookup_amended (clients : List (Nat × Nat)) (cid : Nat) (r : Nat)
    (msg : String) :
    (lookupClient clients cid = none →
      handleInbound clients cid msg = EchoOutcome.panicked) ∧
    (lookupClient clients cid = some r →
      handleInbound clients cid msg = EchoOutcome.echoed r msg) := by
  constructor <;> intro h <;> simp [handleInbound, h]

/-- Closed instance of `c6_lookup_amended`: a miss panics, a hit echoes
the message unmodified. -/
theorem c6_lookup_amended_witness :
    handleInbound [(1, 10)] 2 "hi" = (EchoOutcome.panicked : EchoOutcome String) ∧
    handleInbound [(1, 10)] 1 "hi" = EchoOutcome.echoed 10 "hi" :=
  ⟨(c6_lookup_amended [(1, 10)] 2 10 "hi").1 rfl,
   (c6_lookup_amended [(1, 10)] 1 10 "hi").2 rfl⟩

/-- C7 counterexample: on the socket-command passthrough path (tag not
`"SET_ACTIVITY"`), a failing event serialization does not skip the
broadcast — `unwrap_or("".to_string())` makes the loop broadcast the
empty string to all clients. -/
theorem c7_passthrough_counterexample :
    wsStep id (fun _ => none) (fun _ => none) 1 cmdFoo = [""] ∧
    ([""] : List String) ≠ [] := by
  constructor
  · rfl
  · decide

/-- C7 amended: on the IPC populate path and on the SET_ACTIVITY
populate path, a serialization failure of the outgoing
`ActivityPayload` skips exactly that broadcast and the loop continues;
on the passthrough path, a serialization failure of the event instead
broadcasts the empty string produced by `unwrap_or`. -/
theorem c7_serialization_amended (f : ActivityCmd → ActivityCmd)
    (serCmd : ActivityCmd → Option String) (ser : ActivityPayload → Option String)
    (n : Nat) (c : ActivityCmd) (args : ActivityArgs) (act : Activity)
    (hn : n ≠ 0) (hargs : (f c).args = some args) (hact : args.activity = some act)
    (hser : ser ⟨some { act with application_id := (f c).application_id }, args.pid,
                 some (toString (args.pid.getD 0))⟩ = none) :
    ipcStep f ser n c = [] ∧
    (c.cmd = "SET_ACTIVITY" → wsStep f serCmd ser n c = []) ∧
    (c.cmd ≠ "SET_ACTIVITY" → serCmd c = none → wsStep f serCmd ser n c = [""]) := by
  refine ⟨?_, fun h => ?_, fun h hs => ?_⟩
  · simp [ipcStep, hn, hargs, hact, hser]
  · simp [wsStep, hn, h, hargs, hact, hser]
  · simp [wsStep, hn, h, hs]

/-- Closed instance of `c7_serialization_amended`: with a serializer
that fails on everything, the IPC and SET_ACTIVITY paths for `cmdSet`
broadcast nothing. -/
theorem c7_serialization_witness :
    ipcStep id (fun _ => none) 1 cmdSet = [] ∧
    wsStep id (fun _ => none) (fun _ => none) 1 cmdSet = [] :=
  ⟨(c7_serialization_amended id (fun _ => none) (fun _ => none) 1 cmdSet argsX
      actX (by decide) rfl rfl rfl).1,
   (c7_serialization_amended id (fun _ => none) (fun _ => none) 1 cmdSet argsX
      actX (by decide) rfl rfl rfl).2.1 rfl⟩

/-- C8: for a command event whose tag is `"SET_ACTIVITY"`, the
socket-command dispatch body equals the IPC dispatch body — same
registry check, same normalization, same drop on a missing bundle,
same empty payload on an absent activity, same stamped populated
payload — for every normalization function, serializer and registry
size. -/
theorem c8_ws_ipc_equivalence (f : ActivityCmd → ActivityCmd)
    (serCmd : ActivityCmd → Option String) (ser : ActivityPayload → Option String)
    (n : Nat) (c : ActivityCmd) (h : c.cmd = "SET_ACTIVITY") :
    wsStep f serCmd ser n c = ipcStep f ser n c := by
  by_cases hn : n = 0
  · simp [wsStep, ipcStep, hn]
  · simp [wsStep, ipcStep, hn, h]

/-- Closed instance of `c8_ws_ipc_equivalence` at `cmdSet`. -/
theorem c8_ws_ipc_witness :
    wsStep id (fun _ => none) (fun _ => some "s") 1 cmdSet =
      ipcStep id (fun _ => some "s") 1 cmdSet :=
  c8_ws_ipc_equivalence id (fun _ => none) (fun _ => some "s") 1 cmdSet rfl

/-- C9: one `send_data` call on a registry of N clients attempts
exactly N sends, each carrying the same payload string; the attempted
sends (client id and bytes) depend only on the registered ids, not on
any responder's outcome, so a failing send to one client does not
prevent or alter the sends to the others; and with an empty registry no
send is attempted. -/
theorem c9_fanout_completeness (clients clients' : List (Nat × (String → Bool)))
    (data : String) (h : clients.map Prod.fst = clients'.map Prod.fst) :
    (send_data clients data).length = clients.length ∧
    (∀ a ∈ send_data clients data, a.2.1 = data) ∧
    (send_data clients data).map (fun a => (a.1, a.2.1)) =
      (send_data clients' data).map (fun a => (a.1, a.2.1)) ∧
    send_data ([] : List (Nat × (String → Bool))) data = [] := by
  have e1 : ∀ cs : List (Nat × (String → Bool)),
      (send_data cs data).map (fun a => (a.1, a.2.1)) =
        (cs.map Prod.fst).map (fun i => (i, data)) := by
    intro cs
    induction cs with
    | nil => rfl
    | cons c cs ih => simp [send_data] at ih ⊢
  refine ⟨by simp [send_data], ?_, ?_, rfl⟩
  · intro a ha
    simp only [send_data, List.mem_map] at ha
    obtain ⟨c, _, rfl⟩ := ha
    rfl
  · rw [e1, e1, h]

/-- Closed instance of `c9_fanout_completeness` on a two-client
registry, with the two registries differing only in their responders'
send outcomes. -/
theorem c9_fanout_witness :
    (send_data [(1, fun _ => true), (2, fun _ => false)] "x").length = 2 ∧
    (send_data [(1, fun _ => true), (2, fun _ => false)] "x").map
        (fun a => (a.1, a.2.1)) =
      (send_data [(1, fun _ => false), (2, fun _ => true)] "x").map
        (fun a => (a.1, a.2.1)) :=
  ⟨(c9_fanout_completeness [(1, fun _ => true), (2, fun _ => false)]
      [(1, fun _ => false), (2, fun _ => true)] "x" rfl).1,
   (c9_fanout_completeness [(1, fun _ => true), (2, fun _ => false)]
      [(1, fun _ => false), (2, fun _ => true)] "x" rfl).2.2.1⟩

/-- Sanity check that the JSON recognizer accepts the templates when
the interpolated fields are benign. -/
theorem payload_templates_wf_on_plain_fields :
    jsonWf (proc_payload "123" "Game" "0" 42 "123") = true ∧
    jsonWf (empty_activity 42 "123") = true := by
  decide

/-- C10: a process-detection event accepted for broadcast can produce a
payload text that is not well-formed JSON, because the templates
interpolate fields without escaping and interpolate the timestamp
without quotes: from Idle with one client, the event
`{id:"123", name:"Ga\"me", pid:42}` is accepted and its payload is
rejected by the JSON recognizer, as is the payload of the accepted
event `{id:"123", name:"Game", timestamp:"later", pid:42}`, and an
empty payload whose socketId contains a double quote. -/
theorem c10_unescaped_interpolation :
    procStep 1 ⟨none, none⟩ ⟨"123", "Ga\"me", none, some 42⟩ =
      (⟨some "123", some 42⟩, [proc_payload "123" "Ga\"me" "0" 42 "123"]) ∧
    jsonWf (proc_payload "123" "Ga\"me" "0" 42 "123") = false ∧
    procStep 1 ⟨none, none⟩ ⟨"123", "Game", some "later", some 42⟩ =
      (⟨some "123", some 42⟩, [proc_payload "123" "Game" "later" 42 "123"]) ∧
    jsonWf (proc_payload "123" "Game" "later" 42 "123") = false ∧
    jsonWf (empty_activity 42 "1\"23") = false := by
  refine ⟨by decide, by decide, by decide, by decide, by decide⟩

end RsRPC
